import Mathlib

/-!
Verification development for the fraud-detection streaming pipeline.

Shallow embedding conventions, used throughout:
* Timestamps are rationals (seconds since the Unix epoch); `pd.Timedelta`
  amounts become second counts (1 h = 3600, 1 day = 86400, 7 days = 604800).
* Monetary amounts and coordinates are rationals.
* A Python `dict` access `transaction['k']` on a possibly-missing key is an
  `Except PyError` computation (`KeyError` when absent).
* `pandas.Series.std()` uses `ddof = 1`, so a single-element series yields
  NaN; since square roots are irrational we represent the standard deviation
  by `StdVal`: either `nan`, or `sqrtOf v` meaning the nonnegative square
  root of the rational variance `v` (so the value is `0.0` iff `v = 0`).
* Similarly `distance_from_last_tx` is represented by its square
  (`distance_from_last_tx_sq`), which determines the nonnegative distance.
-/

/-- Python exception classes that the embedded code can raise or that the
specification names.  `malformedInput` stands for the spec's
`MalformedInputError`; the repository itself never defines or raises it. -/
inductive PyError
  | keyError
  | indexError
  | malformedInput
  deriving DecidableEq

/-- A geolocation as stored under `transaction['location']`. -/
structure Location where
  latitude : ℚ
  longitude : ℚ
  deriving DecidableEq

/-- An incoming transaction payload.  Every field is optional so that
malformed inputs (missing keys) are expressible; a present field is already
parsed (`timestamp` is the absolute instant `pd.to_datetime` would return,
in seconds). -/
structure Txn where
  transaction_id : Option String
  user_id : Option ℤ
  amount : Option ℚ
  timestamp : Option ℚ
  location : Option Location
  merchant_category : Option String

/-- One row of `FeatureProcessor.historical_transactions`, exactly the
columns built in `update_historical_data`. -/
structure HistEntry where
  user_id : ℤ
  amount : ℚ
  timestamp : ℚ
  latitude : ℚ
  longitude : ℚ
  merchant_category : String
  deriving DecidableEq

/-- The in-memory history store (the DataFrame, in row order). -/
abbrev Store := List HistEntry

/-- Embeds `d[k]` on a Python dict: the value, or a `KeyError`. -/
def getKey {α : Type} (o : Option α) : Except PyError α :=
  match o with
  | some a => .ok a
  | none => .error .keyError

/-- Standard deviation of a pandas series, represented without square
roots: `nan` for a single-element series (`ddof = 1`), otherwise the square
root of the stored rational variance. -/
inductive StdVal
  | nan
  | sqrtOf (variance : ℚ)
  deriving DecidableEq

/-- Sum of a list of rationals. -/
def amountsSum (l : List ℚ) : ℚ := l.foldl (· + ·) 0

/-- Embeds `Series.mean()` on a nonempty series. -/
def amountsMean (l : List ℚ) : ℚ := amountsSum l / (l.length : ℚ)

/-- Embeds `Series.max()` on a nonempty series (0 as a dummy for the empty case,
which the callers never reach). -/
def amountsMax : List ℚ → ℚ
  | [] => 0
  | x :: xs => xs.foldl max x

/-- Embeds `Series.std()` with `ddof = 1`, in the `StdVal` representation. -/
def sampleStd (l : List ℚ) : StdVal :=
  if l.length ≤ 1 then .nan
  else .sqrtOf
    (amountsSum (l.map (fun x => (x - amountsMean l) ^ 2)) / ((l.length : ℚ) - 1))

/-- Result of `FeatureProcessor._calculate_user_statistics`. -/
structure UserStats where
  avg_amount : ℚ
  max_amount : ℚ
  transaction_frequency : ℚ
  std_amount : StdVal
  deriving DecidableEq

/-- Embeds `FeatureProcessor._calculate_user_statistics`: filter the store to this
user's rows within the lookback window of the current timestamp; on an
empty result return all-zero statistics, otherwise mean / max / count per
lookback day / sample std of the amounts. -/
def calculate_user_statistics (lookback_days : ℚ) (st : Store) (uid : ℤ)
    (current_ts : ℚ) : UserStats :=
  let lookback_date := current_ts - lookback_days * 86400
  let user_history := st.filter
    (fun e => decide (e.user_id = uid ∧ lookback_date ≤ e.timestamp))
  if user_history.isEmpty then
    { avg_amount := 0, max_amount := 0, transaction_frequency := 0,
      std_amount := .sqrtOf 0 }
  else
    let amounts := user_history.map HistEntry.amount
    { avg_amount := amountsMean amounts
      max_amount := amountsMax amounts
      transaction_frequency := (user_history.length : ℚ) / lookback_days
      std_amount := sampleStd amounts }

/-- The row `sort_values('timestamp').iloc[-1]` of this user's rows: the
entry of maximal timestamp, ties resolved to the latest-appended row;
`none` when the user has no rows (pandas raises `IndexError` there). -/
def lastUserTx (st : Store) (uid : ℤ) : Option HistEntry :=
  (st.filter (fun e => decide (e.user_id = uid))).foldl
    (fun acc e =>
      match acc with
      | none => some e
      | some a => if a.timestamp ≤ e.timestamp then some e else some a)
    none

/-- Embeds `FeatureProcessor._calculate_location_features`, returning the squared
`distance_from_last_tx`.  Note the guard in the source tests whether the
*whole* store is empty, not this user's slice; on a nonempty store with no
rows for this user `iloc[-1]` raises `IndexError`. -/
def calculate_location_features (st : Store) (tx : Txn) : Except PyError ℚ :=
  if st.isEmpty then .ok 0
  else do
    let uid ← getKey tx.user_id
    match lastUserTx st uid with
    | none => .error .indexError
    | some last => do
      let loc ← getKey tx.location
      .ok ((loc.latitude - last.latitude) ^ 2 +
           (loc.longitude - last.longitude) ^ 2)

/-- Result of `FeatureProcessor._calculate_velocity_features`. -/
structure Velocity where
  tx_count_1h : ℕ
  tx_count_24h : ℕ
  tx_count_7d : ℕ
  deriving DecidableEq

/-- Embeds `FeatureProcessor._calculate_velocity_features`: counts of this user's
rows with timestamp within 1 h / 24 h / 7 d of the current timestamp. -/
def calculate_velocity_features (st : Store) (uid : ℤ) (current_ts : ℚ) :
    Velocity :=
  let user_history := st.filter (fun e => decide (e.user_id = uid))
  if user_history.isEmpty then ⟨0, 0, 0⟩
  else
    ⟨(user_history.filter (fun e => decide (current_ts - 3600 ≤ e.timestamp))).length,
     (user_history.filter (fun e => decide (current_ts - 86400 ≤ e.timestamp))).length,
     (user_history.filter (fun e => decide (current_ts - 604800 ≤ e.timestamp))).length⟩

/-- Embeds `FeatureProcessor.update_historical_data`: build the new row (a
`KeyError` on any missing field aborts before the store is touched), append
it, then drop every row whose timestamp is older than
`now - lookback_days` (the source takes "now" from the wall clock,
`pd.to_datetime('now')`; here it is the explicit parameter `now`). -/
def update_historical_data (lookback_days : ℚ) (st : Store) (tx : Txn)
    (now : ℚ) : Except PyError Store := do
  let uid ← getKey tx.user_id
  let amt ← getKey tx.amount
  let ts ← getKey tx.timestamp
  let loc ← getKey tx.location
  let cat ← getKey tx.merchant_category
  let entry : HistEntry :=
    { user_id := uid, amount := amt, timestamp := ts,
      latitude := loc.latitude, longitude := loc.longitude,
      merchant_category := cat }
  let cutoff := now - lookback_days * 86400
  .ok ((st ++ [entry]).filter (fun e => decide (cutoff ≤ e.timestamp)))

/-- Embeds `pd.to_datetime(ts).hour` for a nonnegative epoch timestamp. -/
def hourOfDay (ts : ℚ) : ℤ := (ts / 3600).floor % 24

/-- Embeds `pd.to_datetime(ts).weekday()` (Monday = 0); the epoch day was a
Thursday. -/
def weekdayOf (ts : ℚ) : ℤ := ((ts / 86400).floor + 3) % 7

/-- The full feature vector produced by `process_transaction` (std and
distance in their square-root-free representations). -/
structure Features where
  amount : ℚ
  hour_of_day : ℤ
  is_weekend : Bool
  avg_amount : ℚ
  max_amount : ℚ
  transaction_frequency : ℚ
  std_amount : StdVal
  distance_from_last_tx_sq : ℚ
  tx_count_1h : ℕ
  tx_count_24h : ℕ
  tx_count_7d : ℕ
  deriving DecidableEq

/-- Embeds `FeatureProcessor.process_transaction`: first `update_historical_data`
(mutating the store), then compute basic, statistical, location and
velocity features over the *updated* store.  Returns the outcome together
with the store as it stands when the call ends. -/
def process_transaction (lookback_days : ℚ) (st : Store) (tx : Txn)
    (now : ℚ) : Except PyError Features × Store :=
  match update_historical_data lookback_days st tx now with
  | .error e => (.error e, st)
  | .ok st' =>
    match tx.amount, tx.timestamp, tx.user_id with
    | some amt, some ts, some uid =>
      let stats := calculate_user_statistics lookback_days st' uid ts
      match calculate_location_features st' tx with
      | .error e => (.error e, st')
      | .ok distSq =>
        let vel := calculate_velocity_features st' uid ts
        (.ok { amount := amt
               hour_of_day := hourOfDay ts
               is_weekend := decide (5 ≤ weekdayOf ts)
               avg_amount := stats.avg_amount
               max_amount := stats.max_amount
               transaction_frequency := stats.transaction_frequency
               std_amount := stats.std_amount
               distance_from_last_tx_sq := distSq
               tx_count_1h := vel.tx_count_1h
               tx_count_24h := vel.tx_count_24h
               tx_count_7d := vel.tx_count_7d }, st')
    | _, _, _ => (.error .keyError, st')

/-! ### Concrete transactions used in the evaluations below.
All timestamps sit 40 days after the epoch (3456000 s = 40 d), so nothing
is evicted under the default 30-day lookback. -/

/-- A first transaction of a fresh entity (user 7, amount 250). -/
def tx_c1 : Txn :=
  { transaction_id := some "TX1", user_id := some 7, amount := some 250,
    timestamp := some 3456000, location := some ⟨40, -74⟩,
    merchant_category := some "retail" }

/-- The history row `update_historical_data` derives from `tx_c1`. -/
def entry_c1 : HistEntry :=
  { user_id := 7, amount := 250, timestamp := 3456000, latitude := 40,
    longitude := -74, merchant_category := "retail" }

/-- A first transaction of a fresh entity (user 8, amount 99). -/
def tx_c2 : Txn :=
  { transaction_id := some "TX2", user_id := some 8, amount := some 99,
    timestamp := some 3456000, location := some ⟨10, 20⟩,
    merchant_category := some "food" }

/-- A prior history entry of user 9 at (40, -74), one day before `tx_c3`. -/
def entry_c3p : HistEntry :=
  { user_id := 9, amount := 100, timestamp := 3369600, latitude := 40,
    longitude := -74, merchant_category := "retail" }

/-- User 9's next transaction, at (41, -73): planar distance √2 from the
prior entry, so squared distance 2. -/
def tx_c3 : Txn :=
  { transaction_id := some "TX3", user_id := some 9, amount := some 50,
    timestamp := some 3456000, location := some ⟨41, -73⟩,
    merchant_category := some "travel" }

/-- A malformed transaction: the required `amount` field is missing. -/
def tx_c6 : Txn :=
  { transaction_id := some "TX6", user_id := some 11, amount := none,
    timestamp := some 3456000, location := some ⟨1, 2⟩,
    merchant_category := some "food" }

/-- A malformed transaction: the required `timestamp` field is missing. -/
def tx_c6w : Txn :=
  { transaction_id := some "TX6W", user_id := some 12, amount := some 5,
    timestamp := none, location := some ⟨3, 4⟩,
    merchant_category := some "food" }

/-- C1: the claim says the statistical aggregates exclude the current
transaction.  The code appends the current transaction to the store
*before* computing them, so they include it: on a fresh entity processing
amount 250 yields `avg_amount = max_amount = 250`,
`transaction_frequency = 1/30` and a NaN standard deviation (pandas
`std` of one row), where the claimed exclusion would give `0.0` for all
four. -/
theorem C1_aggregates_include_current_transaction :
    ∃ f st, process_transaction 30 [] tx_c1 3456000 = (.ok f, st) ∧
      f.avg_amount = 250 ∧ f.max_amount = 250 ∧
      f.transaction_frequency = 1 / 30 ∧ f.std_amount = .nan := by
  norm_num [process_transaction, update_historical_data, getKey, tx_c1,
    Bind.bind, Except.bind, calculate_user_statistics, amountsMean,
    amountsSum, amountsMax, sampleStd, calculate_location_features,
    lastUserTx, calculate_velocity_features]

/-- C2: the claim says an entity with no prior history gets all-zero
aggregates and velocity counts.  Because the current transaction is
appended first, the code instead returns the transaction's own amount as
average and maximum, frequency `1/30`, NaN standard deviation, and all
three velocity counts `1`. -/
theorem C2_fresh_entity_features_nonzero :
    ∃ f st, process_transaction 30 [] tx_c2 3456000 = (.ok f, st) ∧
      f.avg_amount = 99 ∧ f.avg_amount ≠ 0 ∧ f.max_amount = 99 ∧
      f.transaction_frequency = 1 / 30 ∧ f.std_amount = .nan ∧
      f.std_amount ≠ .sqrtOf 0 ∧ f.tx_count_1h = 1 ∧ f.tx_count_24h = 1 ∧
      f.tx_count_7d = 1 := by
  norm_num [process_transaction, update_historical_data, getKey, tx_c2,
    Bind.bind, Except.bind, calculate_user_statistics, amountsMean,
    amountsSum, amountsMax, sampleStd, calculate_location_features,
    lastUserTx, calculate_velocity_features]
  decide

/-- C3: the claim says `distance_from_last_tx` is the distance to the
entity's most recent *prior* entry.  Since the current transaction is
appended before the location feature is computed and has the newest
timestamp, `sort_values('timestamp').iloc[-1]` is the current transaction
itself and the distance is `0`, not the squared planar distance `2` to the
genuine prior entry at (40, -74). -/
theorem C3_distance_measured_to_self :
    ∃ f st, process_transaction 30 [entry_c3p] tx_c3 3456000 = (.ok f, st) ∧
      f.distance_from_last_tx_sq = 0 ∧
      f.distance_from_last_tx_sq ≠
        ((41 : ℚ) - 40) ^ 2 + ((-73 : ℚ) - (-74)) ^ 2 := by
  norm_num [process_transaction, update_historical_data, getKey, tx_c3,
    entry_c3p, Bind.bind, Except.bind, calculate_user_statistics,
    amountsMean, amountsSum, amountsMax, sampleStd,
    calculate_location_features, lastUserTx, calculate_velocity_features]

/-- C6 counterexample: at a transaction missing `amount` the call is
rejected before any mutation, but the raised exception is a `KeyError`
(from the dict access), not the `MalformedInputError` the claim names —
no such class exists in the repository. -/
theorem C6_counterexample_keyerror_not_malformed :
    process_transaction 30 [entry_c3p] tx_c6 3456000 =
      (.error .keyError, [entry_c3p]) ∧
    PyError.keyError ≠ PyError.malformedInput := by
  refine ⟨?_, by decide⟩
  norm_num [process_transaction, update_historical_data, getKey, tx_c6,
    Bind.bind, Except.bind]

/-- C6 amended: a transaction missing any of the required fields (amount,
timestamp, entity id, location) is rejected — with a `KeyError`, not a
`MalformedInputError` — before any history mutation: the store after the
failing call is exactly the store before it. -/
theorem C6_missing_field_rejected_before_mutation
    (lookback now : ℚ) (st : Store) (tx : Txn)
    (h : tx.amount = none ∨ tx.timestamp = none ∨ tx.user_id = none ∨
      tx.location = none) :
    process_transaction lookback st tx now = (.error .keyError, st) := by
  have hupd : update_historical_data lookback st tx now = .error .keyError := by
    rcases tx with ⟨tid, uid, amt, ts, loc, cat⟩
    cases uid <;> cases amt <;> cases ts <;> cases loc <;>
      simp_all [update_historical_data, getKey, Bind.bind, Except.bind]
  simp [process_transaction, hupd]

/-- C6 witness: the amended statement at the concrete transaction missing
its timestamp, against a nonempty store. -/
theorem C6_missing_field_witness :
    process_transaction 30 [entry_c1] tx_c6w 3456000 =
      (.error .keyError, [entry_c1]) :=
  C6_missing_field_rejected_before_mutation 30 3456000 [entry_c1] tx_c6w
    (Or.inr (Or.inl rfl))

/-- C7: after any successful `update_historical_data` call, every entry of
the resulting store has a timestamp no older than the lookback window
relative to the eviction instant `now` — the eviction filter is the final
step of the call, so the invariant holds after every processed
transaction. -/
theorem C7_store_respects_lookback_window
    (lookback now : ℚ) (st st' : Store) (tx : Txn)
    (h : update_historical_data lookback st tx now = .ok st') :
    ∀ e ∈ st', now - lookback * 86400 ≤ e.timestamp := by
  rcases tx with ⟨tid, uid, amt, ts, loc, cat⟩
  cases uid <;> cases amt <;> cases ts <;> cases loc <;> cases cat <;>
    simp [update_historical_data, getKey, Bind.bind, Except.bind] at h
  intro e he
  rw [← h] at he
  rcases List.mem_append.mp he with h' | h' <;>
    (have hc := List.of_mem_filter h'; simp at hc; linarith)

/-- C7 witness: the invariant instantiated at a concrete successful call
(empty store, `tx_c1`, now = 3456000). -/
theorem C7_store_respects_lookback_window_witness :
    (3456000 : ℚ) - 30 * 86400 ≤ entry_c1.timestamp := by
  have h : update_historical_data 30 [] tx_c1 3456000 = .ok [entry_c1] := by
    norm_num [update_historical_data, getKey, tx_c1, entry_c1, Bind.bind,
      Except.bind]
  exact C7_store_respects_lookback_window 30 3456000 [] [entry_c1] tx_c1 h
    entry_c1 (by simp)

/-! ### Pipeline orchestrator (src/src/pipeline/pipeline_orchestrator.py)

The external scorer (`FraudDetector.predict`) is an out-of-scope
collaborator and is abstracted as an oracle returning a prediction or
raising; the metrics collector's recording calls are modelled as events so
the call sequence of a run is visible.  `datetime.now()` differences are
the explicit `dur` parameter. -/

/-- The scorer's output as the orchestrator consumes it (it reads
`prediction['fraud_probability']`). -/
structure Prediction where
  is_fraud : Bool
  fraud_probability : ℚ
  anomaly_score : ℚ
  deriving DecidableEq

/-- The `PipelineResult` dataclass; the empty dicts assigned on the error
path are `none` here. -/
structure PipelineResult where
  transaction_id : String
  features : Option Features
  prediction : Option Prediction
  processing_time : ℚ
  status : String
  error : Option String
  deriving DecidableEq

/-- Calls `PipelineOrchestrator.process_transaction` makes, in order.
`cacheGet`/`cachePut` stand for `CacheManager.get_cached_prediction` /
`CacheManager.cache_prediction`. -/
inductive OrchEvent
  | recordStart
  | invokeScorer
  | recordEnd
  | recordPrediction
  | recordError
  | cacheGet (key : String)
  | cachePut (key : String)
  deriving DecidableEq

/-- Whether an event is a call into the prediction cache. -/
def isCacheEvent : OrchEvent → Bool
  | .cacheGet _ => true
  | .cachePut _ => true
  | _ => false

/-- Embeds `str(e)` for the exception classes we model (only its non-emptiness
matters). -/
def errStr : PyError → String
  | .keyError => "KeyError"
  | .indexError => "IndexError"
  | .malformedInput => "MalformedInputError"

/-- The `except Exception` block of `process_transaction`: log, record the
error, then build the error `PipelineResult` — whose construction reads
`transaction['transaction_id']` and therefore itself raises a `KeyError`
when that field is missing. -/
def orch_handler (tx : Txn) (st : Store) (e : PyError) (dur : ℚ)
    (evs : List OrchEvent) :
    Except PyError PipelineResult × Store × List OrchEvent :=
  let evs' := evs ++ [OrchEvent.recordError]
  match tx.transaction_id with
  | none => (.error .keyError, st, evs')
  | some tid =>
      (.ok { transaction_id := tid, features := none, prediction := none,
             processing_time := dur, status := "error",
             error := some ("Error processing transaction: " ++ errStr e) },
       st, evs')

/-- Embeds `PipelineOrchestrator.process_transaction`: record start, compute
features (mutating the store), invoke the scorer, record end/prediction,
and return a success result; any exception reaches the handler above.
Returns (outcome, store after the call, events in order). -/
def orch_process_transaction (predict : Features → Except PyError Prediction)
    (lookback : ℚ) (st : Store) (tx : Txn) (now dur : ℚ) :
    Except PyError PipelineResult × Store × List OrchEvent :=
  match process_transaction lookback st tx now with
  | (.error e, st') => orch_handler tx st' e dur [OrchEvent.recordStart]
  | (.ok f, st') =>
    match predict f with
    | .error e =>
        orch_handler tx st' e dur [OrchEvent.recordStart, OrchEvent.invokeScorer]
    | .ok p =>
      match tx.transaction_id with
      | none =>
          orch_handler tx st' .keyError dur
            [OrchEvent.recordStart, OrchEvent.invokeScorer,
             OrchEvent.recordEnd, OrchEvent.recordPrediction]
      | some tid =>
          (.ok { transaction_id := tid, features := some f,
                 prediction := some p, processing_time := dur,
                 status := "success", error := none },
           st',
           [OrchEvent.recordStart, OrchEvent.invokeScorer,
            OrchEvent.recordEnd, OrchEvent.recordPrediction])

/-! ### Prediction cache (src/src/utils/cache_manager.py)

The redis client and the JSON codec are external collaborators, abstracted
as oracles that may raise; each manager method wraps its body in
`try/except` and converts any failure into `None` / a silent no-op. -/

/-- Embeds `CacheManager.get_cached_prediction`: read `pred:{key}` from the
backend, parse when the reply is truthy (nonempty), return `None` when
absent; the surrounding `except` turns every failure into `.ok none`. -/
def get_cached_prediction (backendGet : String → Except PyError (Option String))
    (jsonLoads : String → Except PyError Prediction) (transaction_key : String) :
    Except PyError (Option Prediction) :=
  match (do
      let cached ← backendGet ("pred:" ++ transaction_key)
      match cached with
      | some s =>
        if s = "" then pure none
        else do
          let v ← jsonLoads s
          pure (some v)
      | none => pure none : Except PyError (Option Prediction)) with
  | .error _ => .ok none
  | .ok v => .ok v

/-- Embeds `CacheManager.cache_prediction`: serialize and `setex`; the
surrounding `except` swallows every failure, so the call always completes
with no value. -/
def cache_prediction (setex : String → ℚ → String → Except PyError Unit)
    (jsonDumps : Prediction → Except PyError String) (transaction_key : String)
    (prediction : Prediction) (expire_in : ℚ) : Except PyError Unit :=
  match (do
      let s ← jsonDumps prediction
      setex ("pred:" ++ transaction_key) expire_in s : Except PyError Unit) with
  | .error _ => .ok ()
  | .ok _ => .ok ()

/-- Embeds `CacheManager.get_user_profile`: same shape as
`get_cached_prediction`, with keys `user:{id}` and an abstract profile
type. -/
def get_user_profile {α : Type} (backendGet : String → Except PyError (Option String))
    (jsonLoads : String → Except PyError α) (user_id : ℤ) :
    Except PyError (Option α) :=
  match (do
      let cached ← backendGet ("user:" ++ toString user_id)
      match cached with
      | some s =>
        if s = "" then pure none
        else do
          let v ← jsonLoads s
          pure (some v)
      | none => pure none : Except PyError (Option α)) with
  | .error _ => .ok none
  | .ok v => .ok v

/-- Embeds `CacheManager.cache_user_profile`: same shape as `cache_prediction`
with keys `user:{id}`. -/
def cache_user_profile {α : Type} (setex : String → ℚ → String → Except PyError Unit)
    (jsonDumps : α → Except PyError String) (user_id : ℤ) (profile : α)
    (expire_in : ℚ) : Except PyError Unit :=
  match (do
      let s ← jsonDumps profile
      setex ("user:" ++ toString user_id) expire_in s : Except PyError Unit) with
  | .error _ => .ok ()
  | .ok _ => .ok ()

/-! ### Error recovery (src/src/utils/error_recovery.py)

`_reconnect_service` has an empty body (`pass`) in the source — an
unimplemented external effect — so it is abstracted as an outcome
predicate: `reconnect i = true` iff the 0-based attempt number `i` raises
no exception.  `time.sleep` and logging are effect-free here; the slept
delays are returned so the back-off schedule is visible. -/

/-- The `for attempt in range(max_retries)` loop of
`_handle_connection_error`, at starting attempt number `attempt` with
`rem` iterations left.  Returns (recovered?, attempts actually made,
delays slept after failed attempts, in order). -/
def reconnect_loop (reconnect : ℕ → Bool) (base_delay : ℚ) :
    ℕ → ℕ → Bool × ℕ × List ℚ
  | _, 0 => (false, 0, [])
  | attempt, rem + 1 =>
    if reconnect attempt then (true, 1, [])
    else
      let r := reconnect_loop reconnect base_delay (attempt + 1) rem
      (r.1, r.2.1 + 1, base_delay * 2 ^ attempt :: r.2.2)

/-- Embeds `ErrorRecovery._handle_connection_error` with configuration
`max_retries` / `base_delay` (defaults 3 / 1.0): run the retry loop from
attempt 0; both the inner and outer `except` blocks convert any failure
into `False`, so the function is total with a boolean outcome. -/
def handle_connection_error (reconnect : ℕ → Bool) (max_retries : ℕ)
    (base_delay : ℚ) : Bool × ℕ × List ℚ :=
  reconnect_loop reconnect base_delay 0 max_retries

/-- Embeds `ErrorRecovery.recover_from_error`: dispatch on the error-type string;
the non-connection strategies' outcomes are abstracted as booleans; an
unrecognized type yields `False`. -/
def recover_from_error (reconnect : ℕ → Bool) (max_retries : ℕ)
    (base_delay : ℚ) (timeoutOutcome resourceOutcome dataOutcome : Bool)
    (error_type : String) : Bool :=
  if error_type = "connection_error" then
    (handle_connection_error reconnect max_retries base_delay).1
  else if error_type = "timeout_error" then timeoutOutcome
  else if error_type = "resource_error" then resourceOutcome
  else if error_type = "data_error" then dataOutcome
  else false

/-! ### Resource-adaptive optimizer (src/src/utils/performance_optimizer.py)

CPU/memory utilization samples and the host's CPU count are external
inputs, passed as parameters; `_optimize_resources` is the synchronous
tick body the monitoring thread runs each minute. -/

/-- The `ResourceThresholds` dataclass with its source defaults. -/
structure ResourceThresholds where
  cpu_threshold : ℚ := 80
  memory_threshold : ℚ := 85
  batch_size_min : ℤ := 10
  batch_size_max : ℤ := 1000
  thread_count_min : ℤ := 2
  thread_count_max : ℤ := 16

/-- The optimizer's mutable state (`current_batch_size`,
`current_thread_count`), Python integers. -/
structure OptState where
  current_batch_size : ℤ
  current_thread_count : ℤ
  deriving DecidableEq

/-- Python `int()` on a float/rational: truncation toward zero. -/
def pyInt (q : ℚ) : ℤ := if q < 0 then -(⌊-q⌋) else ⌊q⌋

/-- Embeds `PerformanceOptimizer._decrease_batch_size`:
`max(batch_size_min, int(current * 0.8))`. -/
def decrease_batch_size (t : ResourceThresholds) (s : OptState) : OptState :=
  { s with current_batch_size :=
      (max t.batch_size_min (pyInt ((s.current_batch_size : ℚ) * (8 / 10)))) }

/-- Embeds `PerformanceOptimizer._increase_batch_size`:
`min(batch_size_max, int(current * 1.2))`. -/
def increase_batch_size (t : ResourceThresholds) (s : OptState) : OptState :=
  { s with current_batch_size :=
      (min t.batch_size_max (pyInt ((s.current_batch_size : ℚ) * (12 / 10)))) }

/-- Embeds `PerformanceOptimizer._optimize_thread_count`: under high CPU move the
worker count toward `max(thread_count_min, min(current - 1, cpu_count - 1))`;
under low CPU toward `min(thread_count_max, min(current + 1, cpu_count))`;
otherwise leave it. -/
def optimize_thread_count (t : ResourceThresholds) (cpu_count : ℤ)
    (cpu_percent : ℚ) (s : OptState) : OptState :=
  if t.cpu_threshold < cpu_percent then
    { s with current_thread_count :=
        (max t.thread_count_min (min (s.current_thread_count - 1) (cpu_count - 1))) }
  else if cpu_percent < t.cpu_threshold * (7 / 10) then
    { s with current_thread_count :=
        (min t.thread_count_max (min (s.current_thread_count + 1) cpu_count)) }
  else s

/-- Embeds `PerformanceOptimizer._optimize_resources` (one tick): adjust the
batch size by the threshold comparison of the sampled utilizations, then
adjust the thread count from the CPU sample. -/
def optimize_resources (t : ResourceThresholds) (cpu_count : ℤ)
    (cpu_percent memory_percent : ℚ) (s : OptState) : OptState :=
  let s1 :=
    if t.cpu_threshold < cpu_percent ∨ t.memory_threshold < memory_percent then
      decrease_batch_size t s
    else if cpu_percent < t.cpu_threshold * (7 / 10) ∧
        memory_percent < t.memory_threshold * (7 / 10) then
      increase_batch_size t s
    else s
  optimize_thread_count t cpu_count cpu_percent s1

/-! ### Further concrete inputs for the orchestrator claims. -/

/-- A fully malformed transaction: every field, including
`transaction_id`, is missing. -/
def tx_c4 : Txn :=
  { transaction_id := none, user_id := none, amount := none,
    timestamp := none, location := none, merchant_category := none }

/-- A concrete scorer reply. -/
def pred_c5 : Prediction :=
  { is_fraud := false, fraud_probability := 1 / 2, anomaly_score := 3 }

/-- C4 counterexample: on a malformed transaction whose `transaction_id`
key is missing, the `except` block's own access to
`transaction['transaction_id']` raises, so a `KeyError` escapes
`process_transaction` to its caller — the claim's "never lets an
exception escape" fails. -/
theorem C4_counterexample_handler_raises :
    (orch_process_transaction (fun _ => .error .keyError) 30 [] tx_c4 0 0).1 =
      .error .keyError := by
  simp [orch_process_transaction, process_transaction, update_historical_data,
    getKey, tx_c4, Bind.bind, Except.bind, orch_handler]

/-- C4 amended: for every transaction that does carry a `transaction_id`,
no exception escapes: the call returns a `PipelineResult` that is either a
success, or has `status = "error"` with a non-empty error message. -/
theorem C4_no_exception_escape_with_id
    (predict : Features → Except PyError Prediction) (lookback : ℚ)
    (st : Store) (tx : Txn) (now dur : ℚ) (tid : String)
    (hid : tx.transaction_id = some tid) :
    ∃ r st' evs,
      orch_process_transaction predict lookback st tx now dur =
        (.ok r, st', evs) ∧
      (r.status = "success" ∧ r.error = none ∨
       r.status = "error" ∧ ∃ m, r.error = some m ∧ m ≠ "") := by
  unfold orch_process_transaction
  rcases hp : process_transaction lookback st tx now with ⟨res, st'⟩
  rcases res with e | f
  · simp only [orch_handler, hid]
    exact ⟨_, _, _, rfl, Or.inr ⟨rfl, _, rfl, by cases e <;> decide⟩⟩
  · rcases hq : predict f with e | p
    · simp only [hq, orch_handler, hid]
      exact ⟨_, _, _, rfl, Or.inr ⟨rfl, _, rfl, by cases e <;> decide⟩⟩
    · simp only [hq, hid]
      exact ⟨_, _, _, rfl, Or.inl ⟨rfl, rfl⟩⟩

/-- C4 witness: a failing scorer on a well-formed transaction still yields
an `"error"` result with a message rather than an escaping exception. -/
theorem C4_no_exception_escape_with_id_witness :
    ∃ r st' evs,
      orch_process_transaction (fun _ => .error .indexError) 30 [] tx_c1
        3456000 1 = (.ok r, st', evs) ∧
      (r.status = "success" ∧ r.error = none ∨
       r.status = "error" ∧ ∃ m, r.error = some m ∧ m ≠ "") :=
  C4_no_exception_escape_with_id (fun _ => .error .indexError) 30 [] tx_c1
    3456000 1 "TX1" rfl

/-- C5 counterexample: a concrete successful run invokes the scorer and
performs no cache call at all — there is no cache consultation before the
scorer and no store of the fresh prediction, contradicting the claim. -/
theorem C5_counterexample_scorer_without_cache :
    OrchEvent.invokeScorer ∈
      (orch_process_transaction (fun _ => .ok pred_c5) 30 [] tx_c1
        3456000 1).2.2 ∧
    (orch_process_transaction (fun _ => .ok pred_c5) 30 [] tx_c1
        3456000 1).2.2.filter isCacheEvent = [] := by
  obtain ⟨f, st, hp⟩ :
      ∃ f st, process_transaction 30 [] tx_c1 3456000 = (.ok f, st) := by
    norm_num [process_transaction, update_historical_data, getKey, tx_c1,
      Bind.bind, Except.bind, calculate_user_statistics, amountsMean,
      amountsSum, amountsMax, sampleStd, calculate_location_features,
      lastUserTx, calculate_velocity_features]
  simp only [orch_process_transaction]
  rw [hp]
  simp [tx_c1, isCacheEvent]

/-- C5 amended: `PipelineOrchestrator.process_transaction` never touches
the prediction cache (its event trace holds no cache call), and whenever
feature computation succeeds the external scorer is invoked
unconditionally.  `CacheManager` exists in the repository but no
orchestrator path uses it. -/
theorem C5_never_consults_cache
    (predict : Features → Except PyError Prediction) (lookback : ℚ)
    (st : Store) (tx : Txn) (now dur : ℚ) :
    ((orch_process_transaction predict lookback st tx now dur).2.2.filter
        isCacheEvent = []) ∧
    (∀ f st', process_transaction lookback st tx now = (.ok f, st') →
      OrchEvent.invokeScorer ∈
        (orch_process_transaction predict lookback st tx now dur).2.2) := by
  unfold orch_process_transaction
  rcases hp : process_transaction lookback st tx now with ⟨res, st'⟩
  rcases res with e | f
  · constructor
    · rcases h : tx.transaction_id with _ | tid <;>
        simp [orch_handler, h, isCacheEvent]
    · intro f st'' hff; simp at hff
  · constructor
    · rcases hq : predict f with e | p <;>
        rcases h : tx.transaction_id with _ | tid <;>
          simp [orch_handler, h, hq, isCacheEvent]
    · intro f' st'' hff
      rcases hq : predict f with e | p <;>
        rcases h : tx.transaction_id with _ | tid <;>
          simp [orch_handler, h, hq]

/-- C5 witness: the cache-free trace at a concrete run. -/
theorem C5_never_consults_cache_witness :
    (orch_process_transaction (fun _ => .ok pred_c5) 30 [] tx_c2
        3456000 1).2.2.filter isCacheEvent = [] :=
  (C5_never_consults_cache (fun _ => .ok pred_c5) 30 [] tx_c2 3456000 1).1

/-- Auxiliary fact for the retry loop: the number of attempts made never
exceeds the remaining iteration budget. -/
theorem reconnect_loop_attempts_le (reconnect : ℕ → Bool) (d : ℚ) :
    ∀ rem a, (reconnect_loop reconnect d a rem).2.1 ≤ rem := by
  intro rem
  induction rem with
  | zero => intro a; simp [reconnect_loop]
  | succ n ih =>
    intro a
    by_cases h : reconnect a <;> simp [reconnect_loop, h]
    exact ih (a + 1)

/-- Auxiliary fact: the back-off schedule shifts by one attempt index. -/
theorem delays_shift (d : ℚ) (a n : ℕ) :
    d * 2 ^ a :: (List.range n).map (fun i => d * 2 ^ (a + 1 + i)) =
      (List.range (n + 1)).map (fun i => d * 2 ^ (a + i)) := by
  have h : (fun i => d * 2 ^ (a + 1 + i)) = (fun i => d * 2 ^ (a + i.succ)) := by
    funext i
    have hi : a + 1 + i = a + i.succ := by omega
    rw [hi]
  have h2 : ((fun i => d * 2 ^ (a + i)) ∘ Nat.succ) =
      (fun i => d * 2 ^ (a + i.succ)) := rfl
  rw [List.range_succ_eq_map, List.map_cons, List.map_map, h, h2]
  norm_num

/-- Auxiliary fact: when every remaining attempt fails, the loop makes all
of them, sleeps the full exponential schedule, and reports failure. -/
theorem reconnect_loop_all_fail (reconnect : ℕ → Bool) (d : ℚ) :
    ∀ rem a, (∀ i, i < rem → reconnect (a + i) = false) →
      reconnect_loop reconnect d a rem =
        (false, rem, (List.range rem).map (fun i => d * 2 ^ (a + i))) := by
  intro rem
  induction rem with
  | zero => intro a _; simp [reconnect_loop]
  | succ n ih =>
    intro a hall
    have h0 : reconnect a = false := by simpa using hall 0 (Nat.succ_pos n)
    have hrec := ih (a + 1) (fun i hi => by
      have := hall (i + 1) (by omega)
      simpa [Nat.add_assoc, Nat.add_comm 1 i] using this)
    rw [reconnect_loop, if_neg (by simp [h0]), hrec]
    simp only [Prod.mk.injEq]
    exact ⟨trivial, trivial, delays_shift d a n⟩

/-- Auxiliary fact: at the first succeeding attempt the loop stops with
success, having slept only the delays of the preceding failures. -/
theorem reconnect_loop_first_success (reconnect : ℕ → Bool) (d : ℚ) :
    ∀ rem a j, j < rem → reconnect (a + j) = true →
      (∀ i, i < j → reconnect (a + i) = false) →
      reconnect_loop reconnect d a rem =
        (true, j + 1, (List.range j).map (fun i => d * 2 ^ (a + i))) := by
  intro rem
  induction rem with
  | zero => intro a j hj _ _; omega
  | succ n ih =>
    intro a j hj hsucc hfail
    cases j with
    | zero =>
      simp only [Nat.add_zero] at hsucc
      simp [reconnect_loop, hsucc]
    | succ k =>
      have h0 : reconnect a = false := by simpa using hfail 0 (Nat.succ_pos k)
      have hrec := ih (a + 1) k (by omega)
        (by rw [show a + 1 + k = a + (k + 1) from by omega]; exact hsucc)
        (fun i hi => by
          have := hfail (i + 1) (by omega)
          simpa [Nat.add_assoc, Nat.add_comm 1 i] using this)
      rw [reconnect_loop, if_neg (by simp [h0]), hrec]
      simp only [Prod.mk.injEq]
      exact ⟨trivial, trivial, delays_shift d a k⟩

/-- C8: a connection-class recovery with configured maximum `m` and base
delay `d` makes at most `m` attempts; if all attempts fail it makes
exactly `m` of them, sleeps `d * 2 ^ i` after the `i`-th failure, and
returns `False` without raising (the function is total); if attempt `j` is
the first to succeed it returns `True` after `j + 1` attempts with delays
`d * 2 ^ 0 … d * 2 ^ (j-1)`. -/
theorem C8_connection_retry_backoff (reconnect : ℕ → Bool) (m : ℕ) (d : ℚ) :
    (handle_connection_error reconnect m d).2.1 ≤ m ∧
    ((∀ i, i < m → reconnect i = false) →
      handle_connection_error reconnect m d =
        (false, m, (List.range m).map (fun i => d * 2 ^ i))) ∧
    (∀ j, j < m → reconnect j = true → (∀ i, i < j → reconnect i = false) →
      handle_connection_error reconnect m d =
        (true, j + 1, (List.range j).map (fun i => d * 2 ^ i))) := by
  refine ⟨reconnect_loop_attempts_le reconnect d m 0, ?_, ?_⟩
  · intro hall
    have := reconnect_loop_all_fail reconnect d m 0 (fun i hi => by
      simpa using hall i hi)
    simpa [handle_connection_error] using this
  · intro j hj hs hf
    have := reconnect_loop_first_success reconnect d m 0 j hj (by simpa using hs)
      (fun i hi => by simpa using hf i hi)
    simpa [handle_connection_error] using this

/-- C8 witness: with `max_retries = 3`, `base_delay = 1` and every attempt
failing, exactly 3 attempts are made, the delays are 1, 2, 4 seconds, and
the outcome is `False`. -/
theorem C8_connection_retry_backoff_witness :
    handle_connection_error (fun _ => false) 3 1 = (false, 3, [1, 2, 4]) := by
  have h := (C8_connection_retry_backoff (fun _ => false) 3 1).2.1
    (fun i _ => rfl)
  rw [h]
  norm_num [List.range_succ]

/-- C9 counterexample: with default thresholds, a tick at CPU = 90 %,
memory = 50 % on a state whose batch size already sits at the configured
minimum (10) leaves the batch size at 10 — it is not strictly decreased,
so the unconditional "strictly decreases" of the claim fails. -/
theorem C9_counterexample_batch_at_minimum :
    (optimize_resources {} 8 90 50
        { current_batch_size := 10, current_thread_count := 4 }).current_batch_size
      = 10 ∧
    ¬ (optimize_resources {} 8 90 50
        { current_batch_size := 10, current_thread_count := 4 }).current_batch_size
      < ({ current_batch_size := 10, current_thread_count := 4 } :
          OptState).current_batch_size := by
  norm_num [optimize_resources, decrease_batch_size, optimize_thread_count,
    pyInt]

/-- C9 amended: a tick observed at CPU = 90 %, memory = 50 % (with the CPU
threshold below 90, a positive configured minimum batch size, and a state
at or above the configured minima) never increases the batch size or the
worker count, and strictly decreases the batch size exactly when it is
strictly above the configured minimum; at the minimum it stays put. -/
theorem C9_tick_monotone_high_cpu (t : ResourceThresholds) (cpu_count : ℤ)
    (s : OptState) (hcpu : t.cpu_threshold < 90)
    (hminpos : 0 < t.batch_size_min)
    (hb : t.batch_size_min ≤ s.current_batch_size)
    (ht : t.thread_count_min ≤ s.current_thread_count) :
    (optimize_resources t cpu_count 90 50 s).current_batch_size ≤
      s.current_batch_size ∧
    (t.batch_size_min < s.current_batch_size →
      (optimize_resources t cpu_count 90 50 s).current_batch_size <
        s.current_batch_size) ∧
    (optimize_resources t cpu_count 90 50 s).current_thread_count ≤
      s.current_thread_count := by
  have hres : optimize_resources t cpu_count 90 50 s =
      optimize_thread_count t cpu_count 90 (decrease_batch_size t s) := by
    simp only [optimize_resources]
    rw [if_pos (Or.inl hcpu)]
  have hbatch :
      (optimize_thread_count t cpu_count 90
          (decrease_batch_size t s)).current_batch_size =
        max t.batch_size_min (pyInt ((s.current_batch_size : ℚ) * (8 / 10))) := by
    simp [optimize_thread_count, if_pos hcpu, decrease_batch_size]
  have hthread :
      (optimize_thread_count t cpu_count 90
          (decrease_batch_size t s)).current_thread_count =
        max t.thread_count_min
          (min (s.current_thread_count - 1) (cpu_count - 1)) := by
    simp [optimize_thread_count, if_pos hcpu, decrease_batch_size]
  have hbpos : (0 : ℤ) < s.current_batch_size := lt_of_lt_of_le hminpos hb
  have hfloor :
      pyInt ((s.current_batch_size : ℚ) * (8 / 10)) < s.current_batch_size := by
    have hq : (0 : ℚ) < (s.current_batch_size : ℚ) := by exact_mod_cast hbpos
    have hnn : ¬ ((s.current_batch_size : ℚ) * (8 / 10) < 0) := by nlinarith
    rw [pyInt, if_neg hnn, Int.floor_lt]
    nlinarith
  refine ⟨?_, ?_, ?_⟩
  · rw [hres, hbatch]
    exact max_le hb (le_of_lt hfloor)
  · intro hlt
    rw [hres, hbatch]
    exact max_lt hlt hfloor
  · rw [hres, hthread]
    exact max_le ht (le_trans (min_le_left _ _) (by omega))

/-- C9 witness: the amended tick behaviour at the default thresholds on
the state (batch 100, workers 4) with 8 host CPUs. -/
theorem C9_tick_monotone_high_cpu_witness :
    (optimize_resources {} 8 90 50
        { current_batch_size := 100, current_thread_count := 4 }).current_batch_size ≤
      ({ current_batch_size := 100, current_thread_count := 4 } :
        OptState).current_batch_size ∧
    (({} : ResourceThresholds).batch_size_min <
        ({ current_batch_size := 100, current_thread_count := 4 } :
          OptState).current_batch_size →
      (optimize_resources {} 8 90 50
          { current_batch_size := 100, current_thread_count := 4 }).current_batch_size <
        ({ current_batch_size := 100, current_thread_count := 4 } :
          OptState).current_batch_size) ∧
    (optimize_resources {} 8 90 50
        { current_batch_size := 100, current_thread_count := 4 }).current_thread_count ≤
      ({ current_batch_size := 100, current_thread_count := 4 } :
        OptState).current_thread_count :=
  C9_tick_monotone_high_cpu {} 8
    { current_batch_size := 100, current_thread_count := 4 }
    (by norm_num) (by decide) (by decide) (by decide)

/-- C10: every cache-manager operation is total towards its caller: the
two getters always return a value (never propagate an exception) and
return `None` whenever the backend read raises, and the two setters always
complete silently, whatever the backend or the JSON codec do. -/
theorem C10_cache_operations_never_raise {α : Type}
    (bg : String → Except PyError (Option String))
    (jl : String → Except PyError Prediction)
    (jlp : String → Except PyError α)
    (sx sxp : String → ℚ → String → Except PyError Unit)
    (jd : Prediction → Except PyError String)
    (jdp : α → Except PyError String)
    (k : String) (uid : ℤ) (p : Prediction) (prof : α) (t1 t2 : ℚ) :
    (∃ v, get_cached_prediction bg jl k = .ok v) ∧
    (∀ e, bg ("pred:" ++ k) = .error e →
      get_cached_prediction bg jl k = .ok none) ∧
    (∃ v, get_user_profile bg jlp uid = .ok v) ∧
    (∀ e, bg ("user:" ++ toString uid) = .error e →
      get_user_profile bg jlp uid = .ok none) ∧
    cache_prediction sx jd k p t1 = .ok () ∧
    cache_user_profile sxp jdp uid prof t2 = .ok () := by
  refine ⟨?_, ?_, ?_, ?_, ?_, ?_⟩
  · rcases hg : bg ("pred:" ++ k) with e | o
    · exact ⟨none, by simp [get_cached_prediction, Bind.bind, Except.bind,
        Pure.pure, Except.pure, hg]⟩
    · rcases o with _ | s
      · exact ⟨none, by simp [get_cached_prediction, Bind.bind, Except.bind,
          Pure.pure, Except.pure, hg]⟩
      · by_cases hs : s = ""
        · exact ⟨none, by simp [get_cached_prediction, Bind.bind, Except.bind,
            Pure.pure, Except.pure, hg, hs]⟩
        · rcases hj : jl s with e | v
          · exact ⟨none, by simp [get_cached_prediction, Bind.bind,
              Except.bind, Pure.pure, Except.pure, hg, hs, hj]⟩
          · exact ⟨some v, by simp [get_cached_prediction, Bind.bind,
              Except.bind, Pure.pure, Except.pure, hg, hs, hj]⟩
  · intro e he
    simp [get_cached_prediction, Bind.bind, Except.bind, he]
  · rcases hg : bg ("user:" ++ toString uid) with e | o
    · exact ⟨none, by simp [get_user_profile, Bind.bind, Except.bind,
        Pure.pure, Except.pure, hg]⟩
    · rcases o with _ | s
      · exact ⟨none, by simp [get_user_profile, Bind.bind, Except.bind,
          Pure.pure, Except.pure, hg]⟩
      · by_cases hs : s = ""
        · exact ⟨none, by simp [get_user_profile, Bind.bind, Except.bind,
            Pure.pure, Except.pure, hg, hs]⟩
        · rcases hj : jlp s with e | v
          · exact ⟨none, by simp [get_user_profile, Bind.bind, Except.bind,
              Pure.pure, Except.pure, hg, hs, hj]⟩
          · exact ⟨some v, by simp [get_user_profile, Bind.bind, Except.bind,
              Pure.pure, Except.pure, hg, hs, hj]⟩
  · intro e he
    simp [get_user_profile, Bind.bind, Except.bind, he]
  · rcases hj : jd p with e | s1
    · simp [cache_prediction, Bind.bind, Except.bind, hj]
    · rcases hx : sx ("pred:" ++ k) t1 s1 with e | u <;>
        simp [cache_prediction, Bind.bind, Except.bind, hj, hx]
  · rcases hj : jdp prof with e | s1
    · simp [cache_user_profile, Bind.bind, Except.bind, hj]
    · rcases hx : sxp ("user:" ++ toString uid) t2 s1 with e | u <;>
        simp [cache_user_profile, Bind.bind, Except.bind, hj, hx]

/-- C10 witness: with a backend whose every read raises and a codec that
always fails, the getter still answers `None` for the concrete key
`"TX1"`. -/
theorem C10_cache_operations_never_raise_witness :
    get_cached_prediction (fun _ => .error .keyError)
      (fun _ => .error .keyError) "TX1" = .ok none :=
  (C10_cache_operations_never_raise (α := Unit)
    (fun _ => .error .keyError) (fun _ => .error .keyError)
    (fun _ => .error .keyError) (fun _ _ _ => .ok ()) (fun _ _ _ => .ok ())
    (fun _ => .ok "x") (fun _ => .ok "x") "TX1" 5 pred_c5 () 1 1).2.1
    .keyError rfl
